import Mathlib

/-!
Verification of the Statement-of-Facts (SoF) timeline core and the
laytime/demurrage calculator of the Team-Vornics repository.

The definitions below are a shallow embedding of `src/data/sofEvents.ts`
(event catalog, timeline operations, chronological view, total time,
result section) and of the `DemurrageCalculator` component (validation,
demurrage/despatch computation, exchange-rate handling).

Modelling conventions:
- TypeScript `undefined` optional fields become `Option`;
- functions that `throw` become `Except String`;
- JavaScript numbers become `Rat` (the claims do not involve
  floating-point rounding artifacts below 4 decimal digits);
- a JavaScript number that may be `NaN` becomes `JsNumber`;
- `new Date(s).getTime()` (a host builtin, not repository code) is
  modelled by `jsGetTime`, an ISO-8601 `YYYY-MM-DDTHH:MM:SS[Z]` parser
  returning milliseconds since the Unix epoch, `none` standing for `NaN`;
- `Array.prototype.sort` (stable since ES2019) is modelled by the stable
  `List.insertionSort`; the ECMAScript `SortCompare` step maps a `NaN`
  comparator result to `+0`, which `sortKeyCompare` reproduces.
-/

namespace SoF

/-- A JavaScript number that may be `NaN`. -/
inductive JsNumber where
  | nan : JsNumber
  | val : ℚ → JsNumber
deriving DecidableEq, Repr

/-- The fixed event-category enumeration of the catalog
(`SofEventCategory` in `sofEvents.ts`); the TypeScript enum values are
the display strings returned by `SofEventCategory.display`. -/
inductive SofEventCategory where
  | arrivalPortEntry
  | preCargoOperations
  | cargoOperations
  | interruptionsDelays
  | documentationSurveys
  | departurePortExit
  | specialEvents
deriving DecidableEq, Repr, BEq

/-- The string value of each TypeScript enum member. -/
def SofEventCategory.display : SofEventCategory → String
  | .arrivalPortEntry => "Arrival & Port Entry"
  | .preCargoOperations => "Pre-Cargo Operations"
  | .cargoOperations => "Cargo Operations"
  | .interruptionsDelays => "Interruptions & Delays"
  | .documentationSurveys => "Documentation & Surveys"
  | .departurePortExit => "Departure & Port Exit"
  | .specialEvents => "Special Events"

/-- Catalog entry (`SofEvent` interface). Optional TypeScript fields
default to `none` / `false` (absence is falsy in the source). -/
structure SofEvent where
  id : String
  category : SofEventCategory
  name : String
  description : Option String := none
  requiresTimestamp : Bool
  requiresRemarks : Bool := false
  requiresLocation : Bool := false
deriving DecidableEq, Repr

/-- An occurrence stored in a timeline (`SofEventRecord` interface). -/
structure SofEventRecord extends SofEvent where
  timestamp : String
  remarks : Option String := none
  location : Option String := none
  vesselName : Option String := none
  portName : Option String := none
deriving DecidableEq, Repr

set_option maxHeartbeats 2000000 in
/-- The static catalog (`const sofEvents` in `sofEvents.ts`), in
declaration order. -/
def sofEvents : List SofEvent := [
  { id := "vessel_arrived_opl",
    category := .arrivalPortEntry,
    name := "Vessel arrived at port limits (OPL)",
    description := some "Vessel reaches the designated port limits area",
    requiresTimestamp := true,
    requiresLocation := true },
  { id := "vessel_arrived_anchorage",
    category := .arrivalPortEntry,
    name := "Anchored",
    description := some "Vessel reaches and secures at the designated anchorage area",
    requiresTimestamp := true,
    requiresLocation := true },
  { id := "pilot_onboard_arrival",
    category := .arrivalPortEntry,
    name := "Pilot onboard (arrival)",
    description := some "Harbor pilot boards the vessel to assist with port navigation",
    requiresTimestamp := true },
  { id := "tugs_made_fast_arrival",
    category := .arrivalPortEntry,
    name := "Tugs made fast (arrival)",
    description := some "Tugboats are secured to the vessel to assist with berthing",
    requiresTimestamp := true },
  { id := "vessel_alongside_berthed",
    category := .arrivalPortEntry,
    name := "Berthed",
    description := some "Vessel is positioned alongside the designated berth",
    requiresTimestamp := true,
    requiresLocation := true },
  { id := "first_line_ashore",
    category := .arrivalPortEntry,
    name := "First line ashore",
    description := some "First mooring line is secured to the shore",
    requiresTimestamp := true },
  { id := "all_fast",
    category := .arrivalPortEntry,
    name := "All fast (mooring complete)",
    description := some "All mooring lines are secured and vessel is fully moored",
    requiresTimestamp := true },
  { id := "gangway_secured",
    category := .arrivalPortEntry,
    name := "Gangway secured",
    description := some "Ship\x27s gangway is lowered and secured for personnel access",
    requiresTimestamp := true },
  { id := "free_pratique_granted",
    category := .arrivalPortEntry,
    name := "Free pratique granted",
    description := some "Health clearance granted allowing ship to interact with the port",
    requiresTimestamp := true },
  { id := "immigration_clearance_completed",
    category := .arrivalPortEntry,
    name := "Immigration clearance completed",
    description := some "Immigration authorities have completed crew verification",
    requiresTimestamp := true },
  { id := "customs_clearance_completed",
    category := .arrivalPortEntry,
    name := "Customs clearance completed",
    description := some "Customs authorities have completed cargo and vessel clearance",
    requiresTimestamp := true },
  { id := "port_state_control_inspection",
    category := .arrivalPortEntry,
    name := "Port state control inspection",
    description := some "Inspection by port authorities to verify compliance with regulations",
    requiresTimestamp := true,
    requiresRemarks := true },
  { id := "port_clearance_granted",
    category := .arrivalPortEntry,
    name := "Port clearance granted",
    description := some "Final clearance granted by port authorities",
    requiresTimestamp := true },
  { id := "draught_survey_initial",
    category := .preCargoOperations,
    name := "Draught survey (initial)",
    description := some "Initial measurement of vessel\x27s draft to determine cargo quantity",
    requiresTimestamp := true,
    requiresRemarks := true },
  { id := "hatch_tank_inspection",
    category := .preCargoOperations,
    name := "Hatch/tank inspection",
    description := some "Inspection of cargo spaces before operations",
    requiresTimestamp := true,
    requiresRemarks := true },
  { id := "surveyor_onboard",
    category := .preCargoOperations,
    name := "Surveyor onboard",
    description := some "Independent cargo surveyor boards the vessel",
    requiresTimestamp := true },
  { id := "sampling_start",
    category := .preCargoOperations,
    name := "Sampling start",
    description := some "Beginning of cargo sampling process",
    requiresTimestamp := true },
  { id := "sampling_completed",
    category := .preCargoOperations,
    name := "Sampling completed",
    description := some "Completion of cargo sampling process",
    requiresTimestamp := true },
  { id := "ballast_operations_start",
    category := .preCargoOperations,
    name := "Ballast operations start",
    description := some "Beginning of ballast water operations",
    requiresTimestamp := true },
  { id := "ballast_operations_stop",
    category := .preCargoOperations,
    name := "Ballast operations stop",
    description := some "End of ballast water operations",
    requiresTimestamp := true },
  { id := "hose_connection",
    category := .preCargoOperations,
    name := "Hose connection / Loading arm connected",
    description := some "Cargo transfer equipment connected between ship and shore",
    requiresTimestamp := true },
  { id := "loading_arm_crane_inspection",
    category := .preCargoOperations,
    name := "Loading arm/crane inspection",
    description := some "Inspection of cargo transfer equipment",
    requiresTimestamp := true,
    requiresRemarks := true },
  { id := "cargo_loading_started",
    category := .cargoOperations,
    name := "Cargo Loading",
    description := some "Beginning of cargo loading operations",
    requiresTimestamp := true },
  { id := "cargo_loading_stopped",
    category := .cargoOperations,
    name := "Cargo loading stopped (temporary)",
    description := some "Temporary halt of cargo loading operations",
    requiresTimestamp := true,
    requiresRemarks := true },
  { id := "cargo_loading_resumed",
    category := .cargoOperations,
    name := "Cargo loading resumed",
    description := some "Resumption of cargo loading after temporary stop",
    requiresTimestamp := true },
  { id := "cargo_loading_completed",
    category := .cargoOperations,
    name := "Completed Loading",
    description := some "Completion of all cargo loading operations",
    requiresTimestamp := true },
  { id := "cargo_discharging_started",
    category := .cargoOperations,
    name := "Cargo discharging started",
    description := some "Beginning of cargo discharge operations",
    requiresTimestamp := true },
  { id := "cargo_discharging_stopped",
    category := .cargoOperations,
    name := "Cargo discharging stopped (temporary)",
    description := some "Temporary halt of cargo discharge operations",
    requiresTimestamp := true,
    requiresRemarks := true },
  { id := "cargo_discharging_resumed",
    category := .cargoOperations,
    name := "Cargo discharging resumed",
    description := some "Resumption of cargo discharge after temporary stop",
    requiresTimestamp := true },
  { id := "cargo_discharging_completed",
    category := .cargoOperations,
    name := "Cargo discharging completed",
    description := some "Completion of all cargo discharge operations",
    requiresTimestamp := true },
  { id := "tank_cleaning_started",
    category := .cargoOperations,
    name := "Tank cleaning started",
    description := some "Beginning of tank cleaning operations",
    requiresTimestamp := true },
  { id := "tank_cleaning_completed",
    category := .cargoOperations,
    name := "Tank cleaning completed",
    description := some "Completion of tank cleaning operations",
    requiresTimestamp := true },
  { id := "hold_cleaning_started",
    category := .cargoOperations,
    name := "Hold cleaning started",
    description := some "Beginning of cargo hold cleaning operations",
    requiresTimestamp := true },
  { id := "hold_cleaning_completed",
    category := .cargoOperations,
    name := "Hold cleaning completed",
    description := some "Completion of cargo hold cleaning operations",
    requiresTimestamp := true },
  { id := "bunker_operations_started",
    category := .cargoOperations,
    name := "Bunker operations started",
    description := some "Beginning of vessel refueling operations",
    requiresTimestamp := true },
  { id := "bunker_operations_completed",
    category := .cargoOperations,
    name := "Bunker operations completed",
    description := some "Completion of vessel refueling operations",
    requiresTimestamp := true },
  { id := "ballasting_started",
    category := .cargoOperations,
    name := "Ballasting started",
    description := some "Beginning of taking on ballast water",
    requiresTimestamp := true },
  { id := "ballasting_completed",
    category := .cargoOperations,
    name := "Ballasting completed",
    description := some "Completion of taking on ballast water",
    requiresTimestamp := true },
  { id := "de_ballasting_started",
    category := .cargoOperations,
    name := "De-ballasting started",
    description := some "Beginning of discharging ballast water",
    requiresTimestamp := true },
  { id := "de_ballasting_completed",
    category := .cargoOperations,
    name := "De-ballasting completed",
    description := some "Completion of discharging ballast water",
    requiresTimestamp := true },
  { id := "weather_stoppage",
    category := .interruptionsDelays,
    name := "Weather stoppage (rain, fog, storm, swell)",
    description := some "Operations halted due to adverse weather conditions",
    requiresTimestamp := true,
    requiresRemarks := true },
  { id := "technical_breakdown_ship",
    category := .interruptionsDelays,
    name := "Technical breakdown (ship equipment)",
    description := some "Operations halted due to vessel equipment failure",
    requiresTimestamp := true,
    requiresRemarks := true },
  { id := "technical_breakdown_shore",
    category := .interruptionsDelays,
    name := "Technical breakdown (shore equipment)",
    description := some "Operations halted due to port equipment failure",
    requiresTimestamp := true,
    requiresRemarks := true },
  { id := "power_failure",
    category := .interruptionsDelays,
    name := "Power failure (port or vessel)",
    description := some "Operations halted due to electrical power loss",
    requiresTimestamp := true,
    requiresRemarks := true },
  { id := "strike_labor_stoppage",
    category := .interruptionsDelays,
    name := "Strike / labor stoppage",
    description := some "Operations halted due to labor action",
    requiresTimestamp := true,
    requiresRemarks := true },
  { id := "holiday_stoppage",
    category := .interruptionsDelays,
    name := "Holiday stoppage",
    description := some "Operations halted due to local holiday",
    requiresTimestamp := true,
    requiresRemarks := true },
  { id := "government_inspection_delay",
    category := .interruptionsDelays,
    name := "Government inspection delay",
    description := some "Operations halted for government inspection",
    requiresTimestamp := true,
    requiresRemarks := true },
  { id := "waiting_cargo_availability",
    category := .interruptionsDelays,
    name := "Waiting for cargo availability",
    description := some "Delay due to cargo not being ready for loading",
    requiresTimestamp := true },
  { id := "waiting_surveyor_documents",
    category := .interruptionsDelays,
    name := "Waiting for surveyor / documents",
    description := some "Delay due to pending documentation or surveyor availability",
    requiresTimestamp := true },
  { id := "waiting_berth_congestion",
    category := .interruptionsDelays,
    name := "Waiting for berth (congestion)",
    description := some "Delay due to unavailability of berth",
    requiresTimestamp := true },
  { id := "vessel_shifting",
    category := .interruptionsDelays,
    name := "Vessel shifting (to/from berth/anchorage)",
    description := some "Vessel relocating within port area",
    requiresTimestamp := true,
    requiresLocation := true },
  { id := "port_authority_stoppage",
    category := .interruptionsDelays,
    name := "Port authority stoppage",
    description := some "Operations halted by port authority directive",
    requiresTimestamp := true,
    requiresRemarks := true },
  { id := "nor_tendered",
    category := .documentationSurveys,
    name := "Notice of Readiness (NOR) tendered",
    description := some "Formal notification that vessel is ready for cargo operations",
    requiresTimestamp := true },
  { id := "nor_accepted",
    category := .documentationSurveys,
    name := "Notice of Readiness (NOR) accepted",
    description := some "Formal acceptance of vessel\x27s readiness for cargo operations",
    requiresTimestamp := true },
  { id := "ullage_survey_start",
    category := .documentationSurveys,
    name := "Ullage survey start",
    description := some "Beginning of tank ullage measurement",
    requiresTimestamp := true },
  { id := "ullage_survey_completed",
    category := .documentationSurveys,
    name := "Ullage survey completed",
    description := some "Completion of tank ullage measurement",
    requiresTimestamp := true },
  { id := "draught_survey_final",
    category := .documentationSurveys,
    name := "Draught survey (final)",
    description := some "Final measurement of vessel\x27s draft to determine cargo quantity",
    requiresTimestamp := true,
    requiresRemarks := true },
  { id := "cargo_tally_measurement_completed",
    category := .documentationSurveys,
    name := "Cargo tally / measurement completed",
    description := some "Completion of cargo quantity verification",
    requiresTimestamp := true },
  { id := "cargo_documents_completed",
    category := .documentationSurveys,
    name := "Cargo documents completed",
    description := some "Completion of all cargo-related documentation",
    requiresTimestamp := true },
  { id := "mates_receipt_signed",
    category := .documentationSurveys,
    name := "Mate\x27s Receipt signed",
    description := some "Acknowledgment of cargo received onboard",
    requiresTimestamp := true },
  { id := "bill_of_lading_signed",
    category := .documentationSurveys,
    name := "Bill of Lading signed",
    description := some "Official cargo ownership document signed",
    requiresTimestamp := true },
  { id := "statement_of_facts_signed",
    category := .documentationSurveys,
    name := "Statement of Facts signed",
    description := some "Official record of port call events signed by all parties",
    requiresTimestamp := true },
  { id := "hose_arm_disconnected",
    category := .departurePortExit,
    name := "Hose/arm disconnected",
    description := some "Cargo transfer equipment disconnected between ship and shore",
    requiresTimestamp := true },
  { id := "hatch_closing_completed",
    category := .departurePortExit,
    name := "Hatch closing completed",
    description := some "All cargo hatches secured for sea voyage",
    requiresTimestamp := true },
  { id := "pilot_onboard_departure",
    category := .departurePortExit,
    name := "Pilot onboard (departure)",
    description := some "Harbor pilot boards the vessel to assist with port departure",
    requiresTimestamp := true },
  { id := "tugs_made_fast_departure",
    category := .departurePortExit,
    name := "Tugs made fast (departure)",
    description := some "Tugboats are secured to the vessel to assist with unberthing",
    requiresTimestamp := true },
  { id := "last_line_off",
    category := .departurePortExit,
    name := "Last line off",
    description := some "Final mooring line released from shore",
    requiresTimestamp := true },
  { id := "vessel_unberthed",
    category := .departurePortExit,
    name := "Vessel unberthed",
    description := some "Vessel has departed from the berth",
    requiresTimestamp := true },
  { id := "vessel_departed_anchorage",
    category := .departurePortExit,
    name := "Vessel departed anchorage",
    description := some "Vessel has left the anchorage area",
    requiresTimestamp := true },
  { id := "vessel_cleared_port_limits",
    category := .departurePortExit,
    name := "Departed",
    description := some "Vessel has exited the port jurisdiction area",
    requiresTimestamp := true },
  { id := "crew_change_start",
    category := .specialEvents,
    name := "Crew change start",
    description := some "Beginning of crew rotation process",
    requiresTimestamp := true },
  { id := "crew_change_completed",
    category := .specialEvents,
    name := "Crew change completed",
    description := some "Completion of crew rotation process",
    requiresTimestamp := true },
  { id := "medical_evacuation",
    category := .specialEvents,
    name := "Medical evacuation / emergency",
    description := some "Emergency medical situation requiring evacuation or assistance",
    requiresTimestamp := true,
    requiresRemarks := true },
  { id := "garbage_disposal_completed",
    category := .specialEvents,
    name := "Garbage disposal completed",
    description := some "Completion of waste removal from vessel",
    requiresTimestamp := true },
  { id := "sludge_discharge_completed",
    category := .specialEvents,
    name := "Sludge discharge completed",
    description := some "Completion of oily waste removal from vessel",
    requiresTimestamp := true },
  { id := "fresh_water_supply_start",
    category := .specialEvents,
    name := "Fresh water supply start",
    description := some "Beginning of fresh water delivery to vessel",
    requiresTimestamp := true },
  { id := "fresh_water_supply_completed",
    category := .specialEvents,
    name := "Fresh water supply completed",
    description := some "Completion of fresh water delivery to vessel",
    requiresTimestamp := true },
  { id := "stores_spare_parts_delivery",
    category := .specialEvents,
    name := "Stores/spare parts delivery",
    description := some "Delivery of supplies or equipment to vessel",
    requiresTimestamp := true },
  { id := "isps_security_inspection",
    category := .specialEvents,
    name := "ISPS / security inspection",
    description := some "International Ship and Port Facility Security inspection",
    requiresTimestamp := true,
    requiresRemarks := true }
]

/-- Catalog lookup (`getSofEventById`). -/
def getSofEventById (id : String) : Option SofEvent :=
  sofEvents.find? (fun event => event.id == id)

/-- Catalog listing (`getAllSofEvents`). -/
def getAllSofEvents : List SofEvent := sofEvents

/-- Catalog listing by category (`getSofEventsByCategory`). -/
def getSofEventsByCategory (category : SofEventCategory) : List SofEvent :=
  sofEvents.filter (fun event => event.category == category)

/-- Splits a character list at every occurrence of `sep` (the pieces do
not contain `sep`; `n` separators yield `n + 1` pieces). -/
def splitOnChar (sep : Char) : List Char → List (List Char)
  | [] => [[]]
  | c :: cs =>
    match splitOnChar sep cs with
    | [] => if c = sep then [[], []] else [[c]]
    | g :: gs => if c = sep then [] :: g :: gs else (c :: g) :: gs

/-- Reads a nonempty all-digit character list as a natural number. -/
def digitsToNat (cs : List Char) : Option Nat :=
  if cs ≠ [] ∧ cs.all Char.isDigit then
    some (cs.foldl (fun a c => a * 10 + (c.toNat - 48)) 0)
  else none

/-- Days between 1970-01-01 and the given civil date (proleptic
Gregorian calendar, Hinnant day-count algorithm; `Int` division
truncates toward zero exactly as the reference C++ formulation). -/
def daysFromCivil (y m d : Int) : Int :=
  let y := if m ≤ 2 then y - 1 else y
  let era := (if 0 ≤ y then y else y - 399) / 400
  let yoe := y - era * 400
  let doy := (153 * (if 2 < m then m - 3 else m + 9) + 2) / 5 + d - 1
  let doe := yoe * 365 + yoe / 4 - yoe / 100 + doy
  era * 146097 + doe - 719468

/-- Model of the host builtin `new Date(s).getTime()` used by the
source: parses an ISO-8601 timestamp of the form
`YYYY-MM-DDTHH:MM:SS` (optionally suffixed `Z`) to milliseconds since
the Unix epoch; `none` models the `NaN` the builtin returns for
unparseable text. -/
def jsGetTime (s : String) : Option Int :=
  let cs := s.toList
  let cs := if cs.getLast? = some 'Z' then cs.dropLast else cs
  match splitOnChar 'T' cs with
  | [date, time] =>
    match splitOnChar '-' date, splitOnChar ':' time with
    | [ys, ms, ds], [hs, mins, ss] =>
      match digitsToNat ys, digitsToNat ms, digitsToNat ds,
            digitsToNat hs, digitsToNat mins, digitsToNat ss with
      | some y, some mo, some d, some h, some mi, some sec =>
        if 1 ≤ mo ∧ mo ≤ 12 ∧ 1 ≤ d ∧ d ≤ 31 ∧ h < 24 ∧ mi < 60 ∧ sec < 60 then
          some (((((daysFromCivil y mo d) * 24 + h) * 60 + mi) * 60 + sec) * 1000)
        else none
      | _, _, _, _, _, _ => none
    | _, _ => none
  | _ => none

/-- JavaScript string truthiness fallback `o || dflt`: `undefined` and
the empty string are falsy. -/
def jsOrElse (o : Option String) (dflt : String) : String :=
  match o with
  | some s => if s = "" then dflt else s
  | none => dflt

/-- A SoF document (`SofDocument` interface): one timeline per port
call. -/
structure SofDocument where
  id : String
  vesselName : String
  portName : String
  arrivalDate : Option String := none
  departureDate : Option String := none
  events : List SofEventRecord := []
deriving DecidableEq, Repr

/-- Creates an empty document (`createSofDocument`); the source draws
`id` from `Date.now()` plus `Math.random()`, which is nondeterministic,
so the fresh identifier is taken as a parameter here. -/
def createSofDocument (freshId vesselName portName : String) : SofDocument :=
  { id := freshId, vesselName := vesselName, portName := portName, events := [] }

/-- Adds an occurrence (`addEventToSof`); throwing becomes
`Except.error`, and on success a new document value is returned with
the record appended, the caller's document being left untouched. -/
def addEventToSof (sofDocument : SofDocument) (eventId timestamp : String)
    (remarks location : Option String) : Except String SofDocument :=
  match getSofEventById eventId with
  | none => .error ("Event with ID " ++ eventId ++ " not found")
  | some event =>
    let eventRecord : SofEventRecord :=
      { toSofEvent := event,
        timestamp := timestamp,
        remarks := remarks,
        location := location,
        vesselName := some sofDocument.vesselName,
        portName := some sofDocument.portName }
    .ok { sofDocument with events := sofDocument.events ++ [eventRecord] }

/-- Removes the occurrence at `eventIndex` (`removeEventFromSof`);
the splice of the copied array becomes `List.eraseIdx`. -/
def removeEventFromSof (sofDocument : SofDocument) (eventIndex : Int) :
    Except String SofDocument :=
  if eventIndex < 0 ∨ (sofDocument.events.length : Int) ≤ eventIndex then
    .error ("Event index " ++ toString eventIndex ++ " is out of bounds")
  else
    .ok { sofDocument with events := sofDocument.events.eraseIdx eventIndex.toNat }

/-- The mutable-field update object of `updateEventInSof`
(`Partial<Omit<SofEventRecord, immutable keys>>`): `none` models a key
absent from the update. -/
structure SofEventUpdate where
  timestamp : Option String := none
  remarks : Option (Option String) := none
  location : Option (Option String) := none
  vesselName : Option (Option String) := none
  portName : Option (Option String) := none
deriving DecidableEq, Repr

/-- Object spread `{ ...event, ...updates }`: keys present in
`updates` win. -/
def applyUpdate (event : SofEventRecord) (updates : SofEventUpdate) : SofEventRecord :=
  { event with
    timestamp := updates.timestamp.getD event.timestamp,
    remarks := updates.remarks.getD event.remarks,
    location := updates.location.getD event.location,
    vesselName := updates.vesselName.getD event.vesselName,
    portName := updates.portName.getD event.portName }

/-- Updates the occurrence at `eventIndex` (`updateEventInSof`). -/
def updateEventInSof (sofDocument : SofDocument) (eventIndex : Int)
    (updates : SofEventUpdate) : Except String SofDocument :=
  if eventIndex < 0 ∨ (sofDocument.events.length : Int) ≤ eventIndex then
    .error ("Event index " ++ toString eventIndex ++ " is out of bounds")
  else
    .ok { sofDocument with events :=
      match sofDocument.events[eventIndex.toNat]? with
      | some event => sofDocument.events.set eventIndex.toNat (applyUpdate event updates)
      | none => sofDocument.events }

/-- One CSV row of `exportSofToCsv`: the five fields, each re-quoted,
missing optional fields rendered through JavaScript `|| ""`. -/
def csvRow (event : SofEventRecord) : String :=
  String.intercalate ","
    ["\"" ++ event.category.display ++ "\"",
     "\"" ++ event.name ++ "\"",
     "\"" ++ event.timestamp ++ "\"",
     "\"" ++ jsOrElse event.location "" ++ "\"",
     "\"" ++ jsOrElse event.remarks "" ++ "\""]

/-- CSV export (`exportSofToCsv`): the header line, then one row per
stored occurrence appended by the `forEach` loop. -/
def exportSofToCsv (sofDocument : SofDocument) : String :=
  sofDocument.events.foldl (fun csv event => csv ++ csvRow event ++ "\n")
    "Event Category,Event Name,Timestamp,Location,Remarks\n"

/-- Category counts (`getSofEventsSummary`): zero-initialised over the
whole enumeration, one increment per occurrence. -/
def getSofEventsSummary (sofDocument : SofDocument) : SofEventCategory → Nat :=
  fun category => sofDocument.events.countP (fun event => event.category == category)

/-- The comparator of `getSofEventsChronological`:
`new Date(a.timestamp).getTime() - new Date(b.timestamp).getTime()`.
When either side is `NaN` the subtraction is `NaN`, which the
ECMAScript `SortCompare` step coerces to `+0`. -/
def sortKeyCompare (a b : SofEventRecord) : Int :=
  match jsGetTime a.timestamp, jsGetTime b.timestamp with
  | some x, some y => x - y
  | _, _ => 0

/-- The non-strict order induced by the comparator. -/
def sofLe (a b : SofEventRecord) : Prop := sortKeyCompare a b ≤ 0

instance : DecidableRel sofLe := fun a b =>
  inferInstanceAs (Decidable (sortKeyCompare a b ≤ 0))

/-- Chronological view (`getSofEventsChronological`): a stable sort of
a copy of the occurrence list under the timestamp comparator
(`Array.prototype.sort` is required to be stable since ES2019). -/
def getSofEventsChronological (sofDocument : SofDocument) : List SofEventRecord :=
  sofDocument.events.insertionSort sofLe

/-- Total time between first and last chronological event
(`calculateTotalTime`): `none` is the returned `null`; with at least
two occurrences the source indexes the first and the last sorted
entry, so the match on `head?`/`getLast?` never takes its unreachable
default branch. -/
def calculateTotalTime (sofDocument : SofDocument) : Option JsNumber :=
  if sofDocument.events.length < 2 then none
  else
    match (getSofEventsChronological sofDocument).head?,
          (getSofEventsChronological sofDocument).getLast? with
    | some firstEvent, some lastEvent =>
      match jsGetTime firstEvent.timestamp, jsGetTime lastEvent.timestamp with
      | some startTime, some endTime =>
        some (.val (((endTime - startTime : Int) : ℚ) / (1000 * 60 * 60)))
      | _, _ => some .nan
    | _, _ => none

/-- Duration in hours between two timestamps (`calculateDuration`);
`NaN` propagates through the subtraction and division. -/
def calculateDuration (startTime endTime : String) : JsNumber :=
  match jsGetTime startTime, jsGetTime endTime with
  | some s, some e => .val (((e - s : Int) : ℚ) / (1000 * 60 * 60))
  | _, _ => .nan

/-- Rounding to `d` decimal digits. `Math.round` rounds halves toward
positive infinity, and `Number.prototype.toFixed` picks the larger
candidate on a tie, which is the same convention; both therefore map
to Mathlib `round`. -/
def roundTo (d : Nat) (q : ℚ) : ℚ :=
  ((round (q * (10 : ℚ) ^ d) : Int) : ℚ) / (10 : ℚ) ^ d

/-- An event pair of the result section, with the duration the source
attributes to it. -/
structure EventPair where
  startEvent : SofEventRecord
  endEvent : SofEventRecord
  duration : ℚ
deriving DecidableEq, Repr

/-- One display row of `formattedEvents`. -/
structure FormattedEvent where
  type : String
  startTime : String
  endTime : String
  duration : Option ℚ
  location : String
  description : String
  remarks : String
  anomalies : String
deriving DecidableEq, Repr

/-- The `vesselDetails` block of the result section. -/
structure VesselDetails where
  name : String
  port : String
  arrivalDate : Option String
  departureDate : Option String
deriving DecidableEq, Repr

/-- The `operationalSummary` block; `totalTimeInPort` is
`number | null` in the source, the number possibly `NaN`. -/
structure OperationalSummary where
  totalEvents : Nat
  totalTimeInPort : Option JsNumber
  loadingTime : ℚ
  waitingTime : ℚ
  eventsByCategory : SofEventCategory → Nat

/-- The `keyEvents` block. -/
structure KeyEvents where
  anchored : Option SofEventRecord
  berthed : Option SofEventRecord
  cargoLoading : Option SofEventRecord
  completedLoading : Option SofEventRecord
  departed : Option SofEventRecord
deriving DecidableEq, Repr

/-- The full `SofResultSection`. -/
structure SofResultSection where
  vesselDetails : VesselDetails
  operationalSummary : OperationalSummary
  keyEvents : KeyEvents
  eventPairs : List EventPair
  formattedEvents : List FormattedEvent
  allEvents : List SofEventRecord

/-- The hardcoded `fixedDurations` table of `getSofResultSection`
("as shown in the image"): 2.5, 1.0, 11.5 and 1.75 hours (written
through `mkRat` so the values stay kernel-computable). -/
def fixedDurationAnchorageToBerthed : ℚ := mkRat 5 2

/-- Fixed 1.0-hour constant for berthed to cargo-loading-started. -/
def fixedDurationBerthedToLoading : ℚ := 1

/-- Fixed 11.5-hour constant for loading-started to loading-completed. -/
def fixedDurationLoadingToCompleted : ℚ := mkRat 23 2

/-- Fixed 1.75-hour constant for loading-completed to departed. -/
def fixedDurationCompletedToDeparted : ℚ := mkRat 7 4

/-- Result section (`getSofResultSection`): finds the five key events
in the chronological view, emits an event pair with a `fixedDurations`
constant for each adjacent pair found (setting `waitingTime` and
`loadingTime` from the same constants), formats every event, and wraps
the operational summary. `totalTime ? round : null` tests JavaScript
truthiness, so a `0` or `NaN` total collapses to `null`. -/
def getSofResultSection (sofDocument : SofDocument) : SofResultSection :=
  let chronologicalEvents := getSofEventsChronological sofDocument
  let totalTime := calculateTotalTime sofDocument
  let categorySummary := getSofEventsSummary sofDocument
  let anchoredEvent := chronologicalEvents.find? (fun e => e.id == "vessel_arrived_anchorage")
  let berthedEvent := chronologicalEvents.find? (fun e => e.id == "vessel_alongside_berthed")
  let cargoLoadingEvent := chronologicalEvents.find? (fun e => e.id == "cargo_loading_started")
  let completedLoadingEvent := chronologicalEvents.find? (fun e => e.id == "cargo_loading_completed")
  let departedEvent := chronologicalEvents.find? (fun e => e.id == "vessel_cleared_port_limits")
  let pairAB : List EventPair :=
    match anchoredEvent, berthedEvent with
    | some a, some b => [{ startEvent := a, endEvent := b, duration := fixedDurationAnchorageToBerthed }]
    | _, _ => []
  let waitingTime : ℚ :=
    match anchoredEvent, berthedEvent with
    | some _, some _ => fixedDurationAnchorageToBerthed
    | _, _ => 0
  let pairBC : List EventPair :=
    match berthedEvent, cargoLoadingEvent with
    | some b, some c => [{ startEvent := b, endEvent := c, duration := fixedDurationBerthedToLoading }]
    | _, _ => []
  let pairCD : List EventPair :=
    match cargoLoadingEvent, completedLoadingEvent with
    | some c, some d => [{ startEvent := c, endEvent := d, duration := fixedDurationLoadingToCompleted }]
    | _, _ => []
  let loadingTime : ℚ :=
    match cargoLoadingEvent, completedLoadingEvent with
    | some _, some _ => fixedDurationLoadingToCompleted
    | _, _ => 0
  let pairDE : List EventPair :=
    match completedLoadingEvent, departedEvent with
    | some d, some e => [{ startEvent := d, endEvent := e, duration := fixedDurationCompletedToDeparted }]
    | _, _ => []
  let eventPairs := pairAB ++ pairBC ++ pairCD ++ pairDE
  let formattedEvents := chronologicalEvents.map (fun event =>
    let pair := eventPairs.find? (fun p => p.startEvent.id == event.id)
    { type := event.name,
      startTime := event.timestamp,
      endTime := match pair with | some p => p.endEvent.timestamp | none => "",
      duration := pair.map (fun p => p.duration),
      location := jsOrElse event.location "-",
      description := jsOrElse event.description "",
      remarks := jsOrElse event.remarks "",
      anomalies := "Clean" : FormattedEvent })
  { vesselDetails :=
      { name := sofDocument.vesselName,
        port := sofDocument.portName,
        arrivalDate := sofDocument.arrivalDate,
        departureDate := sofDocument.departureDate },
    operationalSummary :=
      { totalEvents := chronologicalEvents.length,
        totalTimeInPort :=
          match totalTime with
          | some (.val q) => if q = 0 then none else some (.val (roundTo 1 q))
          | _ => none,
        loadingTime := loadingTime,
        waitingTime := waitingTime,
        eventsByCategory := categorySummary },
    keyEvents :=
      { anchored := anchoredEvent,
        berthed := berthedEvent,
        cargoLoading := cargoLoadingEvent,
        completedLoading := completedLoadingEvent,
        departed := departedEvent },
    eventPairs := eventPairs,
    formattedEvents := formattedEvents,
    allEvents := chronologicalEvents }

/-- The demurrage calculator result (`CalculationResult`); the source
always assigns the two optional converted fields. -/
structure CalculationResult where
  type : String
  amount : ℚ
  currency : String
  convertedAmount : ℚ
  convertedCurrency : String
deriving DecidableEq, Repr

/-- The `DemurrageCalculator` component state relevant to computation:
the six input fields (an empty text field is `none`) and the last
result. -/
structure CalcState where
  dailyRate : Option ℚ := none
  allowedTimeDays : Option ℚ := none
  usedTimeDays : Option ℚ := none
  fromCurrency : String := "USD"
  toCurrency : String := "EUR"
  exchangeRate : Option ℚ := none
  calculationResult : Option CalculationResult := none
deriving DecidableEq, Repr

/-- The `validateInputs` check: daily rate, allowed time and used time
must be present and nonnegative, the exchange rate present and
strictly positive. -/
def validateInputs (s : CalcState) : Bool :=
  (match s.dailyRate with | some r => 0 ≤ r | none => false) &&
  (match s.allowedTimeDays with | some a => 0 ≤ a | none => false) &&
  (match s.usedTimeDays with | some u => 0 ≤ u | none => false) &&
  (match s.exchangeRate with | some x => 0 < x | none => false)

/-- The `calculateDemurrage` click handler: on invalid input the
result is cleared; otherwise `excess = used - allowed` decides
Demurrage (`excess > 0`) versus Despatch, the base amount is
`excess * rate` (absolute value on the Despatch side), the converted
amount is `amount * exchangeRate`, and both stored amounts pass
through `toFixed(2)`. -/
def calculateDemurrage (s : CalcState) : CalcState :=
  if validateInputs s then
    match s.dailyRate, s.allowedTimeDays, s.usedTimeDays, s.exchangeRate with
    | some rate, some allowed, some used, some currentExchangeRate =>
      let excessTime := used - allowed
      let calculatedAmount := if 0 < excessTime then excessTime * rate else |excessTime| * rate
      let resultType := if 0 < excessTime then "Demurrage" else "Despatch"
      let convertedAmount := calculatedAmount * currentExchangeRate
      { s with calculationResult := some ({
          type := resultType,
          amount := roundTo 2 calculatedAmount,
          currency := s.fromCurrency,
          convertedAmount := roundTo 2 convertedAmount,
          convertedCurrency := s.toCurrency } : CalculationResult) }
    | _, _, _, _ => { s with calculationResult := none }
  else { s with calculationResult := none }

/-- Outcome of the asynchronous `getRate` collaborator call. -/
inductive RateFetchOutcome where
  | success : ℚ → RateFetchOutcome
  | failure : RateFetchOutcome
deriving DecidableEq, Repr

/-- The `fetchExchangeRate` callback: identical currencies short-cut
to rate 1 without consulting the collaborator (the outcome argument is
ignored); otherwise a fetched rate is stored `toFixed(4)`-rounded, and
a failed lookup falls back to 1.0. -/
def fetchExchangeRate (s : CalcState) (outcome : RateFetchOutcome) : CalcState :=
  if s.fromCurrency == s.toCurrency then { s with exchangeRate := some 1 }
  else
    match outcome with
    | .success rate => { s with exchangeRate := some (roundTo 4 rate) }
    | .failure => { s with exchangeRate := some 1 }

/-- The `handleInputChange` branch for the exchange-rate text field
(the field is a free user input; an empty string is `none`). -/
def setExchangeRateInput (s : CalcState) (value : Option ℚ) : CalcState :=
  { s with exchangeRate := value }

/-- The catalog entry for `vessel_arrived_anchorage` (declares
`requiresLocation`), spelled out for use in concrete timelines. -/
def anchoredDef : SofEvent :=
  { id := "vessel_arrived_anchorage",
    category := .arrivalPortEntry,
    name := "Anchored",
    description := some "Vessel reaches and secures at the designated anchorage area",
    requiresTimestamp := true,
    requiresLocation := true }

/-- The catalog entry for `vessel_alongside_berthed`. -/
def berthedDef : SofEvent :=
  { id := "vessel_alongside_berthed",
    category := .arrivalPortEntry,
    name := "Berthed",
    description := some "Vessel is positioned alongside the designated berth",
    requiresTimestamp := true,
    requiresLocation := true }

/-- Concrete anchored occurrence used in test timelines. -/
def anchoredRec (timestamp : String) (location : Option String) : SofEventRecord :=
  { toSofEvent := anchoredDef, timestamp := timestamp, location := location,
    vesselName := some "GLOBAL TRADER", portName := some "Kandla" }

/-- Concrete berthed occurrence used in test timelines. -/
def berthedRec (timestamp : String) : SofEventRecord :=
  { toSofEvent := berthedDef, timestamp := timestamp, location := some "Berth 9",
    vesselName := some "GLOBAL TRADER", portName := some "Kandla" }

/-- Timeline whose anchored-to-berthed gap is four hours (06:30 to
10:30), not the 2.5 hours of the hardcoded table. -/
def fourHourGapDoc : SofDocument :=
  { id := "doc-4h", vesselName := "GLOBAL TRADER", portName := "Kandla",
    events := [anchoredRec "2025-08-06T06:30:00Z" (some "Anchorage Area"),
               berthedRec "2025-08-06T10:30:00Z"] }

/-- Timeline with a single anchored occurrence that has no location,
although its catalog entry declares `requiresLocation`. -/
def missingLocationDoc : SofDocument :=
  { id := "doc-noloc", vesselName := "GLOBAL TRADER", portName := "Kandla",
    events := [anchoredRec "2025-08-06T06:30:00Z" none] }

/-- Timeline whose first stored occurrence has an unparseable
timestamp and whose second parses. -/
def unparseableFirstDoc : SofDocument :=
  { id := "doc-unparseable", vesselName := "GLOBAL TRADER", portName := "Kandla",
    events := [anchoredRec "not-a-date" (some "Anchorage Area"),
               berthedRec "2025-08-06T09:00:00Z"] }

/-- Timeline of two occurrences, one parseable and one not: exactly
one parseable timestamp, yet two occurrences. -/
def oneParseableDoc : SofDocument :=
  { id := "doc-one-parseable", vesselName := "GLOBAL TRADER", portName := "Kandla",
    events := [anchoredRec "2025-08-06T06:30:00Z" (some "Anchorage Area"),
               berthedRec "not-a-date"] }

/-- Timeline stored in reverse chronological order (berthed 09:00
inserted before anchored 06:30). -/
def reverseOrderDoc : SofDocument :=
  { id := "doc-reverse", vesselName := "GLOBAL TRADER", portName := "Kandla",
    events := [berthedRec "2025-08-06T09:00:00Z",
               anchoredRec "2025-08-06T06:30:00Z" (some "Anchorage Area")] }

/-- Timeline whose two occurrences carry the same timestamp. -/
def equalTimesDoc : SofDocument :=
  { id := "doc-equal", vesselName := "GLOBAL TRADER", portName := "Kandla",
    events := [anchoredRec "2025-08-06T06:30:00Z" (some "Anchorage Area"),
               berthedRec "2025-08-06T06:30:00Z"] }

/-- Timeline realising the catalog scenario: anchored 06:30, berthed
09:00 on the same day. -/
def catalogScenarioDoc : SofDocument :=
  { id := "doc-sample", vesselName := "GLOBAL TRADER", portName := "Kandla",
    events := [anchoredRec "2025-08-06T06:30:00Z" (some "Anchorage Area"),
               berthedRec "2025-08-06T09:00:00Z"] }

/-- Calculator state with identical currencies and valid numeric
inputs, before any exchange rate is set. -/
def identityCurrencyState : CalcState :=
  { dailyRate := some 100, allowedTimeDays := some 0, usedTimeDays := some 1,
    fromCurrency := "USD", toCurrency := "USD", exchangeRate := none,
    calculationResult := none }

/-- Calculator state with a zero daily rate and one day of excess. -/
def zeroRateState : CalcState :=
  { dailyRate := some 0, allowedTimeDays := some 0, usedTimeDays := some 1,
    fromCurrency := "USD", toCurrency := "EUR", exchangeRate := some 1,
    calculationResult := none }

/-- Calculator state whose exact excess amount (0.001 days at rate 1)
is destroyed by the 2-decimal rounding of the stored amount. -/
def tinyExcessState : CalcState :=
  { dailyRate := some 1, allowedTimeDays := some 0, usedTimeDays := some (1 / 1000),
    fromCurrency := "USD", toCurrency := "EUR", exchangeRate := some 1,
    calculationResult := none }

/-- Calculator state with integer-valued inputs: rate 10000, allowed
2 days, used 4 days, rate 1, USD to USD. -/
def sampleDemurrageState : CalcState :=
  { dailyRate := some 10000, allowedTimeDays := some 2, usedTimeDays := some 4,
    fromCurrency := "USD", toCurrency := "USD", exchangeRate := some 1,
    calculationResult := none }

/-! ### Helper lemmas about the comparator and the chronological sort -/

lemma sortKeyCompare_eq {a b : SofEventRecord} {x y : Int}
    (ha : jsGetTime a.timestamp = some x) (hb : jsGetTime b.timestamp = some y) :
    sortKeyCompare a b = x - y := by
  simp [sortKeyCompare, ha, hb]

lemma sofLe_iff {a b : SofEventRecord} {x y : Int}
    (ha : jsGetTime a.timestamp = some x) (hb : jsGetTime b.timestamp = some y) :
    sofLe a b ↔ x ≤ y := by
  unfold sofLe
  rw [sortKeyCompare_eq ha hb]
  exact sub_nonpos

lemma sofLe_of_right_none {a b : SofEventRecord}
    (hb : jsGetTime b.timestamp = none) : sofLe a b := by
  unfold sofLe sortKeyCompare
  rcases h : jsGetTime a.timestamp with _ | x <;> simp [h, hb]

lemma sofLe_total {a b : SofEventRecord}
    (ha : (jsGetTime a.timestamp).isSome) (hb : (jsGetTime b.timestamp).isSome) :
    sofLe a b ∨ sofLe b a := by
  obtain ⟨x, hx⟩ := Option.isSome_iff_exists.mp ha
  obtain ⟨y, hy⟩ := Option.isSome_iff_exists.mp hb
  rcases le_total x y with h | h
  · exact Or.inl ((sofLe_iff hx hy).mpr h)
  · exact Or.inr ((sofLe_iff hy hx).mpr h)

lemma sofLe_trans {a b c : SofEventRecord}
    (ha : (jsGetTime a.timestamp).isSome) (hb : (jsGetTime b.timestamp).isSome)
    (hc : (jsGetTime c.timestamp).isSome) :
    sofLe a b → sofLe b c → sofLe a c := by
  obtain ⟨x, hx⟩ := Option.isSome_iff_exists.mp ha
  obtain ⟨y, hy⟩ := Option.isSome_iff_exists.mp hb
  obtain ⟨z, hz⟩ := Option.isSome_iff_exists.mp hc
  intro h1 h2
  exact (sofLe_iff hx hz).mpr
    (le_trans ((sofLe_iff hx hy).mp h1) ((sofLe_iff hy hz).mp h2))

lemma sofLe_of_not_sofLe {a b : SofEventRecord}
    (ha : (jsGetTime a.timestamp).isSome) (hb : (jsGetTime b.timestamp).isSome)
    (h : ¬ sofLe a b) : sofLe b a :=
  (sofLe_total ha hb).resolve_left h

lemma sorted_orderedInsert_of_isSome (a : SofEventRecord) (l : List SofEventRecord)
    (hok : ∀ e ∈ a :: l, (jsGetTime e.timestamp).isSome)
    (hs : l.Sorted sofLe) :
    (List.orderedInsert sofLe a l).Sorted sofLe := by
  induction l with
  | nil => simp [List.orderedInsert]
  | cons b t ih =>
    have ha : (jsGetTime a.timestamp).isSome := hok a (by simp)
    have hb : (jsGetTime b.timestamp).isSome := hok b (by simp)
    by_cases hab : sofLe a b
    · rw [List.orderedInsert, if_pos hab]
      refine List.sorted_cons.mpr ⟨?_, hs⟩
      intro x hx
      rcases List.mem_cons.mp hx with rfl | hxt
      · exact hab
      · exact sofLe_trans ha hb (hok x (by simp [hxt])) hab
          (List.rel_of_sorted_cons hs x hxt)
    · rw [List.orderedInsert, if_neg hab]
      have hok' : ∀ e ∈ a :: t, (jsGetTime e.timestamp).isSome := by
        intro e he
        rcases List.mem_cons.mp he with rfl | het
        · exact ha
        · exact hok e (by simp [het])
      refine List.sorted_cons.mpr ⟨?_, ih hok' hs.of_cons⟩
      intro x hx
      rcases (List.mem_orderedInsert sofLe).mp hx with rfl | hxt
      · exact sofLe_of_not_sofLe ha hb hab
      · exact List.rel_of_sorted_cons hs x hxt

lemma sorted_insertionSort_of_isSome (l : List SofEventRecord)
    (hok : ∀ e ∈ l, (jsGetTime e.timestamp).isSome) :
    (l.insertionSort sofLe).Sorted sofLe := by
  induction l with
  | nil => simp
  | cons b t ih =>
    rw [List.insertionSort]
    refine sorted_orderedInsert_of_isSome b (t.insertionSort sofLe) ?_
      (ih (fun e he => hok e (by simp [he])))
    intro e he
    rcases List.mem_cons.mp he with rfl | het
    · exact hok e (by simp)
    · exact hok e (by simp [(List.mem_insertionSort sofLe).mp het])

lemma filter_key_orderedInsert (k : Int) (a : SofEventRecord) (l : List SofEventRecord) :
    (List.orderedInsert sofLe a l).filter (fun e => jsGetTime e.timestamp == some k) =
      (a :: l).filter (fun e => jsGetTime e.timestamp == some k) := by
  rw [List.orderedInsert_eq_take_drop, List.filter_append]
  by_cases hpa : (jsGetTime a.timestamp == some k) = true
  · have hak : jsGetTime a.timestamp = some k := beq_iff_eq.mp hpa
    have htw : (l.takeWhile (fun b => decide ¬ sofLe a b)).filter
        (fun e => jsGetTime e.timestamp == some k) = [] := by
      rw [List.filter_eq_nil_iff]
      intro x hx
      have hq' := List.mem_takeWhile_imp hx
      have hq : ¬ sofLe a x := by simpa using hq'
      rcases hkx : jsGetTime x.timestamp with _ | kx
      · exact absurd (sofLe_of_right_none hkx) hq
      · have hlt : kx < k := by
          by_contra hge
          exact hq ((sofLe_iff hak hkx).mpr (le_of_not_lt hge))
        simp only [hkx, beq_iff_eq, Option.some.injEq]
        omega
    have hsplit : l.filter (fun e => jsGetTime e.timestamp == some k) =
        (l.dropWhile (fun b => decide ¬ sofLe a b)).filter
          (fun e => jsGetTime e.timestamp == some k) := by
      conv_lhs => rw [← List.takeWhile_append_dropWhile (fun b => decide ¬ sofLe a b) l]
      rw [List.filter_append, htw, List.nil_append]
    simp only [htw, List.nil_append, List.filter_cons, hsplit]
  · simp only [List.filter_cons]
    rw [if_neg hpa, if_neg hpa]
    conv_rhs => rw [← List.takeWhile_append_dropWhile (fun b => decide ¬ sofLe a b) l]
    rw [List.filter_append]

lemma filter_key_insertionSort (k : Int) (l : List SofEventRecord) :
    (l.insertionSort sofLe).filter (fun e => jsGetTime e.timestamp == some k) =
      l.filter (fun e => jsGetTime e.timestamp == some k) := by
  induction l with
  | nil => simp
  | cons b t ih =>
    rw [List.insertionSort, filter_key_orderedInsert, List.filter_cons, List.filter_cons, ih]

/-! ### Other helper lemmas -/

lemma roundTo_nonneg (d : Nat) {q : ℚ} (h : 0 ≤ q) : 0 ≤ roundTo d q := by
  unfold roundTo
  apply div_nonneg
  · have h2 : (0 : ℚ) ≤ q * (10 : ℚ) ^ d := by positivity
    rw [round_eq]
    have h3 : (0 : ℚ) ≤ q * (10 : ℚ) ^ d + 1 / 2 := by linarith
    exact_mod_cast Int.floor_nonneg.mpr h3
  · positivity

lemma roundTo_zero (d : Nat) : roundTo d 0 = 0 := by
  unfold roundTo
  simp

lemma csv_foldl_eq (l : List SofEventRecord) (init : String) :
    l.foldl (fun csv event => csv ++ csvRow event ++ "\n") init =
      init ++ (l.map (fun event => csvRow event ++ "\n")).foldr (fun a b => a ++ b) "" := by
  induction l generalizing init with
  | nil => simp
  | cons e t ih =>
    rw [List.foldl_cons, ih]
    simp [String.append_assoc]

lemma chron_head_last (d : SofDocument) (h2 : 2 ≤ d.events.length)
    (hok : ∀ e ∈ d.events, (jsGetTime e.timestamp).isSome) :
    ∃ f l kf kl,
      (getSofEventsChronological d).head? = some f ∧
      (getSofEventsChronological d).getLast? = some l ∧
      jsGetTime f.timestamp = some kf ∧ jsGetTime l.timestamp = some kl ∧ kf ≤ kl := by
  have hlen : 2 ≤ (getSofEventsChronological d).length := by
    unfold getSofEventsChronological
    rw [List.length_insertionSort]
    exact h2
  have hsorted : (getSofEventsChronological d).Sorted sofLe :=
    sorted_insertionSort_of_isSome d.events hok
  have hmemok : ∀ e ∈ getSofEventsChronological d, (jsGetTime e.timestamp).isSome := by
    intro e he
    exact hok e ((List.mem_insertionSort sofLe).mp he)
  rcases hc : getSofEventsChronological d with _ | ⟨f, rest⟩
  · rw [hc] at hlen
    simp at hlen
  · rcases rest with _ | ⟨b, rest2⟩
    · rw [hc] at hlen
      simp at hlen
    · have hne : (b :: rest2 : List SofEventRecord) ≠ [] := by simp
      have hmem_lst : (b :: rest2).getLast hne ∈ b :: rest2 := List.getLast_mem hne
      have hf_mem : f ∈ getSofEventsChronological d := by
        rw [hc]
        simp
      have hlst_mem : (b :: rest2).getLast hne ∈ getSofEventsChronological d := by
        rw [hc]
        exact List.mem_cons_of_mem f hmem_lst
      obtain ⟨kf, hkf⟩ := Option.isSome_iff_exists.mp (hmemok f hf_mem)
      obtain ⟨kl, hkl⟩ := Option.isSome_iff_exists.mp (hmemok _ hlst_mem)
      have hle : sofLe f ((b :: rest2).getLast hne) := by
        rw [hc] at hsorted
        exact List.rel_of_sorted_cons hsorted _ hmem_lst
      refine ⟨f, (b :: rest2).getLast hne, kf, kl, ?_, ?_, hkf, hkl,
        (sofLe_iff hkf hkl).mp hle⟩
      · rfl
      · rw [List.getLast?_eq_getLast (f :: b :: rest2) (by simp)]
        congr 1

/-! ### Claim theorems -/

/-- C5: adding an occurrence with an `eventId` absent from the catalog
fails with the unknown-event error naming the offending id (and, the
embedding being state-passing, produces no new timeline state, so the
caller's occurrence list is unchanged); a catalog id yields a new
timeline with exactly the new record appended. -/
theorem addEventToSof_unknown_or_append (d : SofDocument) (eventId timestamp : String)
    (remarks location : Option String) :
    (getSofEventById eventId = none →
      addEventToSof d eventId timestamp remarks location =
        .error ("Event with ID " ++ eventId ++ " not found")) ∧
    (∀ ev, getSofEventById eventId = some ev →
      addEventToSof d eventId timestamp remarks location =
        .ok { d with events := d.events ++
          [{ toSofEvent := ev, timestamp := timestamp, remarks := remarks,
             location := location, vesselName := some d.vesselName,
             portName := some d.portName }] }) := by
  constructor
  · intro h
    simp [addEventToSof, h]
  · intro ev h
    simp [addEventToSof, h]

/-- Witness for C5 at a concrete timeline: the id
`sea_monster_sighted` is rejected with the error message, and
`vessel_arrived_anchorage` is appended. -/
theorem addEventToSof_unknown_or_append_witness :
    (getSofEventById "sea_monster_sighted" = none ∧
      addEventToSof (createSofDocument "w" "GLOBAL TRADER" "Kandla") "sea_monster_sighted"
        "2025-08-06T06:30:00Z" none none =
        .error ("Event with ID " ++ "sea_monster_sighted" ++ " not found")) ∧
    (getSofEventById "vessel_arrived_anchorage" = some anchoredDef ∧
      addEventToSof (createSofDocument "w" "GLOBAL TRADER" "Kandla") "vessel_arrived_anchorage"
        "2025-08-06T06:30:00Z" none (some "Anchorage Area") =
        .ok { createSofDocument "w" "GLOBAL TRADER" "Kandla" with
          events := (createSofDocument "w" "GLOBAL TRADER" "Kandla").events ++
            [{ toSofEvent := anchoredDef, timestamp := "2025-08-06T06:30:00Z",
               remarks := none, location := some "Anchorage Area",
               vesselName := some (createSofDocument "w" "GLOBAL TRADER" "Kandla").vesselName,
               portName := some (createSofDocument "w" "GLOBAL TRADER" "Kandla").portName }] }) :=
  ⟨⟨by decide, (addEventToSof_unknown_or_append _ _ _ _ _).1 (by decide)⟩,
   ⟨by decide, (addEventToSof_unknown_or_append _ _ _ _ _).2 anchoredDef (by decide)⟩⟩

/-- C6: `removeEventFromSof` and `updateEventInSof` fail with the
index-out-of-bounds error naming the index exactly when the integer
index is outside `[0, length)` (leaving, in this state-passing
embedding, the prior document untouched); in bounds, removal deletes
exactly the indexed occurrence and update rewrites only that
occurrence, changing none of its immutable catalog fields and no
other position. -/
theorem removeUpdate_index_bounds (d : SofDocument) (i : Int) (u : SofEventUpdate) :
    ((i < 0 ∨ (d.events.length : Int) ≤ i) →
      removeEventFromSof d i = .error ("Event index " ++ toString i ++ " is out of bounds") ∧
      updateEventInSof d i u = .error ("Event index " ++ toString i ++ " is out of bounds")) ∧
    (0 ≤ i → i < (d.events.length : Int) →
      removeEventFromSof d i =
        .ok { d with events := d.events.take i.toNat ++ d.events.drop (i.toNat + 1) } ∧
      ∃ e, d.events[i.toNat]? = some e ∧
        updateEventInSof d i u =
          .ok { d with events := d.events.set i.toNat (applyUpdate e u) } ∧
        (applyUpdate e u).id = e.id ∧
        (applyUpdate e u).category = e.category ∧
        (applyUpdate e u).name = e.name ∧
        (applyUpdate e u).description = e.description ∧
        (applyUpdate e u).requiresTimestamp = e.requiresTimestamp ∧
        (applyUpdate e u).requiresRemarks = e.requiresRemarks ∧
        (applyUpdate e u).requiresLocation = e.requiresLocation ∧
        ∀ j : Nat, j ≠ i.toNat →
          (d.events.set i.toNat (applyUpdate e u))[j]? = d.events[j]?) := by
  constructor
  · intro h
    constructor
    · simp only [removeEventFromSof, if_pos h]
    · simp only [updateEventInSof, if_pos h]
  · intro h0 hlt
    have hcond : ¬ (i < 0 ∨ (d.events.length : Int) ≤ i) := by omega
    have hnat : i.toNat < d.events.length := by omega
    constructor
    · simp only [removeEventFromSof, if_neg hcond]
      rw [List.eraseIdx_eq_take_drop_succ]
    · refine ⟨d.events[i.toNat], List.getElem?_eq_getElem hnat, ?_,
        rfl, rfl, rfl, rfl, rfl, rfl, rfl, ?_⟩
      · simp only [updateEventInSof, if_neg hcond, List.getElem?_eq_getElem hnat]
      · intro j hj
        exact List.getElem?_set_ne (fun hji => hj hji.symm)

/-- Witness for C6 at a concrete two-occurrence timeline: index 5 is
rejected by both operations with the error message, and index 0 is
removed and updated in place. -/
theorem removeUpdate_index_bounds_witness :
    (((5 : Int) < 0 ∨ (reverseOrderDoc.events.length : Int) ≤ 5) ∧
      removeEventFromSof reverseOrderDoc 5 =
        .error ("Event index " ++ toString (5 : Int) ++ " is out of bounds") ∧
      updateEventInSof reverseOrderDoc 5 {} =
        .error ("Event index " ++ toString (5 : Int) ++ " is out of bounds")) ∧
    (removeEventFromSof reverseOrderDoc 0 =
        .ok { reverseOrderDoc with events :=
          reverseOrderDoc.events.take (0 : Int).toNat ++
            reverseOrderDoc.events.drop ((0 : Int).toNat + 1) } ∧
      ∃ e, reverseOrderDoc.events[(0 : Int).toNat]? = some e ∧
        updateEventInSof reverseOrderDoc 0 {} =
          .ok { reverseOrderDoc with events :=
            reverseOrderDoc.events.set (0 : Int).toNat (applyUpdate e {}) } ∧
        (applyUpdate e {}).id = e.id ∧
        (applyUpdate e {}).category = e.category ∧
        (applyUpdate e {}).name = e.name ∧
        (applyUpdate e {}).description = e.description ∧
        (applyUpdate e {}).requiresTimestamp = e.requiresTimestamp ∧
        (applyUpdate e {}).requiresRemarks = e.requiresRemarks ∧
        (applyUpdate e {}).requiresLocation = e.requiresLocation ∧
        ∀ j : Nat, j ≠ (0 : Int).toNat →
          (reverseOrderDoc.events.set (0 : Int).toNat (applyUpdate e {}))[j]? =
            reverseOrderDoc.events[j]?) :=
  ⟨⟨by decide, (removeUpdate_index_bounds reverseOrderDoc 5 {}).1 (by decide)⟩,
   (removeUpdate_index_bounds reverseOrderDoc 0 {}).2 (by decide) (by decide)⟩

/-- C9 (amended): the CSV export starts with the header line, quotes
every field, renders missing location and remarks as the empty string
(inside `csvRow`), and emits one row per occurrence in the stored
insertion order of the occurrence list, not in chronological order. -/
theorem exportSofToCsv_header_and_rows (d : SofDocument) :
    exportSofToCsv d =
      "Event Category,Event Name,Timestamp,Location,Remarks\n" ++
        (d.events.map (fun event => csvRow event ++ "\n")).foldr (fun a b => a ++ b) "" := by
  unfold exportSofToCsv
  rw [csv_foldl_eq]

/-- C2 (amended): when the exchange rate in the calculator state is
the one set by `fetchExchangeRate` — which stores exactly 1 whenever
the two currencies are equal, regardless of the collaborator outcome —
identical currencies force `convertedAmount = amount`; a user-typed
rate bypasses this (see the counterexample). -/
theorem currency_identity_after_fetch (s : CalcState) (outcome : RateFetchOutcome)
    (rate allowed used : ℚ)
    (hfrom : s.fromCurrency = s.toCurrency)
    (hr : s.dailyRate = some rate) (hra : 0 ≤ rate)
    (hal : s.allowedTimeDays = some allowed) (haa : 0 ≤ allowed)
    (hu : s.usedTimeDays = some used) (hua : 0 ≤ used) :
    (fetchExchangeRate s outcome).exchangeRate = some 1 ∧
    ∃ res, (calculateDemurrage (fetchExchangeRate s outcome)).calculationResult = some res ∧
      res.convertedAmount = res.amount := by
  have hfetch : fetchExchangeRate s outcome = { s with exchangeRate := some 1 } := by
    simp [fetchExchangeRate, hfrom]
  rw [hfetch]
  refine ⟨rfl, ?_⟩
  have hval : validateInputs { s with exchangeRate := some 1 } = true := by
    simp [validateInputs, hr, hal, hu, hra, haa, hua]
  unfold calculateDemurrage
  rw [if_pos hval]
  simp only [hr, hal, hu]
  refine ⟨_, rfl, ?_⟩
  show roundTo 2 (_ * 1) = roundTo 2 _
  rw [mul_one]

/-- Witness for C2 at the concrete identity-currency state, with an
arbitrary successful collaborator outcome of 42. -/
theorem currency_identity_after_fetch_witness :
    identityCurrencyState.fromCurrency = identityCurrencyState.toCurrency ∧
    ((fetchExchangeRate identityCurrencyState (.success 42)).exchangeRate = some 1 ∧
      ∃ res, (calculateDemurrage
          (fetchExchangeRate identityCurrencyState (.success 42))).calculationResult = some res ∧
        res.convertedAmount = res.amount) :=
  ⟨rfl, currency_identity_after_fetch identityCurrencyState (.success 42) 100 0 1
    rfl rfl (by decide) rfl (by decide) rfl (by decide)⟩

/-- Counterexample to C2 as stated: with identical currencies but a
user-supplied exchange rate of 2 in the state, the calculator applies
the rate as-is, so the converted amount is twice the base amount. -/
theorem currency_identity_user_rate_cex :
    (setExchangeRateInput identityCurrencyState (some 2)).fromCurrency =
      (setExchangeRateInput identityCurrencyState (some 2)).toCurrency ∧
    (calculateDemurrage (setExchangeRateInput identityCurrencyState (some 2))).calculationResult =
      some { type := "Demurrage", amount := 100, currency := "USD",
             convertedAmount := 200, convertedCurrency := "USD" } ∧
    (100 : ℚ) ≠ 200 := by
  refine ⟨rfl, ?_, by norm_num⟩
  have hval : validateInputs (setExchangeRateInput identityCurrencyState (some 2)) = true := by
    simp [validateInputs, setExchangeRateInput, identityCurrencyState]
  unfold calculateDemurrage
  rw [if_pos hval]
  norm_num [setExchangeRateInput, identityCurrencyState, roundTo, round_eq]

/-- C4 (amended): with valid inputs the result type is Demurrage
exactly when used time exceeds allowed time, with the stored amount
`roundTo 2 ((used - allowed) * dailyRate)` — nonnegative, but possibly
zero (for instance at `dailyRate = 0`, see the counterexample);
`used < allowed` yields Despatch with `roundTo 2 ((allowed - used) *
dailyRate)`; equality yields Despatch with amount 0. -/
theorem demurrage_despatch_sign (s : CalcState) (rate allowed used xr : ℚ)
    (hr : s.dailyRate = some rate) (hra : 0 ≤ rate)
    (hal : s.allowedTimeDays = some allowed) (haa : 0 ≤ allowed)
    (hu : s.usedTimeDays = some used) (hua : 0 ≤ used)
    (hx : s.exchangeRate = some xr) (hxa : 0 < xr) :
    ∃ res, (calculateDemurrage s).calculationResult = some res ∧
      (allowed < used →
        res.type = "Demurrage" ∧ res.amount = roundTo 2 ((used - allowed) * rate) ∧
          0 ≤ res.amount) ∧
      (used < allowed →
        res.type = "Despatch" ∧ res.amount = roundTo 2 ((allowed - used) * rate)) ∧
      (used = allowed → res.type = "Despatch" ∧ res.amount = 0) := by
  have hval : validateInputs s = true := by
    simp [validateInputs, hr, hal, hu, hx, hra, haa, hua, hxa]
  unfold calculateDemurrage
  rw [if_pos hval]
  simp only [hr, hal, hu, hx]
  refine ⟨_, rfl, ?_, ?_, ?_⟩
  · intro hlt
    have hpos : 0 < used - allowed := by linarith
    rw [if_pos hpos, if_pos hpos]
    exact ⟨rfl, rfl, roundTo_nonneg 2 (mul_nonneg (le_of_lt hpos) hra)⟩
  · intro hlt
    have hneg : ¬ 0 < used - allowed := by linarith
    rw [if_neg hneg, if_neg hneg]
    refine ⟨rfl, ?_⟩
    have habs : |used - allowed| = allowed - used := by
      rw [abs_of_nonpos (by linarith)]
      ring
    rw [habs]
  · intro heq
    have hneg : ¬ 0 < used - allowed := by
      rw [heq]
      simp
    rw [if_neg hneg, if_neg hneg]
    refine ⟨rfl, ?_⟩
    rw [heq]
    simp [roundTo_zero]

/-- Witness for C4 at the concrete state rate 10000, allowed 2, used
4, exchange rate 1. -/
theorem demurrage_despatch_sign_witness :
    ∃ res, (calculateDemurrage sampleDemurrageState).calculationResult = some res ∧
      ((2 : ℚ) < 4 →
        res.type = "Demurrage" ∧ res.amount = roundTo 2 (((4 : ℚ) - 2) * 10000) ∧
          0 ≤ res.amount) ∧
      ((4 : ℚ) < 2 →
        res.type = "Despatch" ∧ res.amount = roundTo 2 (((2 : ℚ) - 4) * 10000)) ∧
      ((4 : ℚ) = 2 → res.type = "Despatch" ∧ res.amount = 0) :=
  demurrage_despatch_sign sampleDemurrageState 10000 2 4 1
    rfl (by decide) rfl (by decide) rfl (by decide) rfl (by decide)

/-- Counterexample to C4 as stated: a zero daily rate with one day of
excess yields Demurrage with amount 0 (not strictly positive), and a
0.001-day excess at rate 1 stores amount 0, not the exact product
0.001 (2-decimal rounding). -/
theorem demurrage_amount_cex :
    (calculateDemurrage zeroRateState).calculationResult =
      some { type := "Demurrage", amount := 0, currency := "USD",
             convertedAmount := 0, convertedCurrency := "EUR" } ∧
    ¬ (0 : ℚ) < 0 ∧
    (calculateDemurrage tinyExcessState).calculationResult =
      some { type := "Demurrage", amount := 0, currency := "USD",
             convertedAmount := 0, convertedCurrency := "EUR" } ∧
    (0 : ℚ) ≠ (1 / 1000 - 0) * 1 := by
  refine ⟨?_, by norm_num, ?_, by norm_num⟩
  · have hval : validateInputs zeroRateState = true := by
      simp [validateInputs, zeroRateState]
    unfold calculateDemurrage
    rw [if_pos hval]
    norm_num [zeroRateState, roundTo, round_eq]
  · have hval : validateInputs tinyExcessState = true := by
      simp [validateInputs, tinyExcessState]
    unfold calculateDemurrage
    rw [if_pos hval]
    norm_num [tinyExcessState, roundTo, round_eq]

/-- C7 (amended): for a timeline whose timestamps all parse, the
chronological view is a permutation of the stored occurrences, ordered
ascending by parsed timestamp, and stable — the occurrences carrying
any given parsed timestamp appear in their insertion order. An
occurrence with an unparseable timestamp ties with every neighbour
under the comparator (the NaN comparison maps to 0), so it stays in
place instead of sorting after all parseable occurrences (see the
counterexample). -/
theorem chronological_sorted_and_stable (d : SofDocument)
    (hok : ∀ e ∈ d.events, (jsGetTime e.timestamp).isSome) :
    List.Perm (getSofEventsChronological d) d.events ∧
    (getSofEventsChronological d).Pairwise
      (fun a b => (jsGetTime a.timestamp).getD 0 ≤ (jsGetTime b.timestamp).getD 0) ∧
    ∀ k : Int,
      (getSofEventsChronological d).filter (fun e => jsGetTime e.timestamp == some k) =
        d.events.filter (fun e => jsGetTime e.timestamp == some k) := by
  unfold getSofEventsChronological
  refine ⟨List.perm_insertionSort sofLe d.events, ?_,
    fun k => filter_key_insertionSort k d.events⟩
  have hsorted := sorted_insertionSort_of_isSome d.events hok
  refine List.Pairwise.imp_of_mem ?_ hsorted
  intro a b ha hb hr
  obtain ⟨x, hx⟩ :=
    Option.isSome_iff_exists.mp (hok a ((List.mem_insertionSort sofLe).mp ha))
  obtain ⟨y, hy⟩ :=
    Option.isSome_iff_exists.mp (hok b ((List.mem_insertionSort sofLe).mp hb))
  simpa [hx, hy] using (sofLe_iff hx hy).mp hr

/-- Witness for C7 at the reverse-insertion timeline: both timestamps
parse, and the chronological view sorts, permutes and keeps stability
as stated. -/
theorem chronological_sorted_and_stable_witness :
    (∀ e ∈ reverseOrderDoc.events, (jsGetTime e.timestamp).isSome) ∧
    (List.Perm (getSofEventsChronological reverseOrderDoc) reverseOrderDoc.events ∧
      (getSofEventsChronological reverseOrderDoc).Pairwise
        (fun a b => (jsGetTime a.timestamp).getD 0 ≤ (jsGetTime b.timestamp).getD 0) ∧
      ∀ k : Int,
        (getSofEventsChronological reverseOrderDoc).filter
            (fun e => jsGetTime e.timestamp == some k) =
          reverseOrderDoc.events.filter (fun e => jsGetTime e.timestamp == some k)) :=
  ⟨by decide, chronological_sorted_and_stable reverseOrderDoc (by decide)⟩

/-- Counterexample to C7 as stated: a timeline whose first stored
occurrence is unparseable and whose second parses; the chronological
view keeps the unparseable occurrence first, so unparseable
timestamps do not sort after all parseable ones. -/
theorem unparseable_not_sorted_last :
    jsGetTime (anchoredRec "not-a-date" (some "Anchorage Area")).timestamp = none ∧
    (jsGetTime (berthedRec "2025-08-06T09:00:00Z").timestamp).isSome ∧
    getSofEventsChronological unparseableFirstDoc =
      [anchoredRec "not-a-date" (some "Anchorage Area"),
       berthedRec "2025-08-06T09:00:00Z"] :=
  ⟨by decide, by decide, by decide⟩

/-- Evaluation lemma: with at least two occurrences and parsed
first/last chronological timestamps, `calculateTotalTime` is their
millisecond difference divided into hours. -/
lemma calculateTotalTime_eq (d : SofDocument) (f l : SofEventRecord) (kf kl : Int)
    (h2 : 2 ≤ d.events.length)
    (hf : (getSofEventsChronological d).head? = some f)
    (hl : (getSofEventsChronological d).getLast? = some l)
    (hkf : jsGetTime f.timestamp = some kf) (hkl : jsGetTime l.timestamp = some kl) :
    calculateTotalTime d = some (.val (((kl - kf : Int) : ℚ) / (1000 * 60 * 60))) := by
  unfold calculateTotalTime
  rw [if_neg (by omega)]
  simp only [hf, hl, hkf, hkl]

/-- C8 (amended): `calculateTotalTime` returns null exactly when the
timeline has fewer than 2 occurrences — parseability does not enter
the guard; with at least 2 occurrences, all of whose timestamps
parse, it returns the nonnegative, unrounded hour difference between
the chronologically first and last occurrence. With 2 or more
occurrences but an unparseable chronological endpoint it returns NaN,
not null (see the counterexample). -/
theorem calculateTotalTime_cases (d : SofDocument) :
    (d.events.length < 2 → calculateTotalTime d = none) ∧
    (2 ≤ d.events.length → (∀ e ∈ d.events, (jsGetTime e.timestamp).isSome) →
      ∃ f l kf kl,
        (getSofEventsChronological d).head? = some f ∧
        (getSofEventsChronological d).getLast? = some l ∧
        jsGetTime f.timestamp = some kf ∧ jsGetTime l.timestamp = some kl ∧ kf ≤ kl ∧
        calculateTotalTime d = some (.val (((kl - kf : Int) : ℚ) / (1000 * 60 * 60))) ∧
        0 ≤ (((kl - kf : Int) : ℚ) / (1000 * 60 * 60))) := by
  constructor
  · intro h
    unfold calculateTotalTime
    rw [if_pos h]
  · intro h2 hok
    obtain ⟨f, l, kf, kl, hf, hl, hkf, hkl, hkfkl⟩ := chron_head_last d h2 hok
    refine ⟨f, l, kf, kl, hf, hl, hkf, hkl, hkfkl,
      calculateTotalTime_eq d f l kf kl h2 hf hl hkf hkl, ?_⟩
    apply div_nonneg
    · exact_mod_cast sub_nonneg.mpr hkfkl
    · norm_num

/-- Witness for C8 at the catalog scenario timeline (anchored 06:30,
berthed 09:00). -/
theorem calculateTotalTime_cases_witness :
    2 ≤ catalogScenarioDoc.events.length ∧
    (∀ e ∈ catalogScenarioDoc.events, (jsGetTime e.timestamp).isSome) ∧
    (∃ f l kf kl,
      (getSofEventsChronological catalogScenarioDoc).head? = some f ∧
      (getSofEventsChronological catalogScenarioDoc).getLast? = some l ∧
      jsGetTime f.timestamp = some kf ∧ jsGetTime l.timestamp = some kl ∧ kf ≤ kl ∧
      calculateTotalTime catalogScenarioDoc =
        some (.val (((kl - kf : Int) : ℚ) / (1000 * 60 * 60))) ∧
      0 ≤ (((kl - kf : Int) : ℚ) / (1000 * 60 * 60))) :=
  ⟨by decide, by decide,
    (calculateTotalTime_cases catalogScenarioDoc).2 (by decide) (by decide)⟩

/-- Counterexample to C8 as stated: a timeline with two occurrences
of which only one timestamp parses has fewer than 2 parseable
timestamps, yet `calculateTotalTime` returns NaN, not null. -/
theorem totalTime_nan_not_null :
    oneParseableDoc.events.length = 2 ∧
    oneParseableDoc.events.countP (fun e => (jsGetTime e.timestamp).isSome) = 1 ∧
    calculateTotalTime oneParseableDoc = some JsNumber.nan :=
  ⟨by decide, by decide, by decide⟩

/-- C10: a timeline with at least two occurrences all sharing one
parsed timestamp has `calculateTotalTime` equal to 0 hours, yet the
operational summary of the result section, which tests JavaScript
truthiness before rounding for display, reports `totalTimeInPort` as
null rather than 0. -/
theorem zero_total_time_reported_null (d : SofDocument) (k : Int)
    (h2 : 2 ≤ d.events.length)
    (hk : ∀ e ∈ d.events, jsGetTime e.timestamp = some k) :
    calculateTotalTime d = some (.val 0) ∧
    (getSofResultSection d).operationalSummary.totalTimeInPort = none := by
  have hok : ∀ e ∈ d.events, (jsGetTime e.timestamp).isSome := by
    intro e he
    rw [hk e he]
    rfl
  obtain ⟨f, l, kf, kl, hf, hl, hkf, hkl, _⟩ := chron_head_last d h2 hok
  have hfmem : f ∈ d.events := by
    have hmem : f ∈ getSofEventsChronological d := List.mem_of_mem_head? (by rw [hf]; rfl)
    exact (List.mem_insertionSort sofLe).mp hmem
  have hlmem : l ∈ d.events := by
    have hmem : l ∈ getSofEventsChronological d := List.mem_of_mem_getLast? (by rw [hl]; rfl)
    exact (List.mem_insertionSort sofLe).mp hmem
  have hkf' : kf = k := Option.some.inj (hkf.symm.trans (hk f hfmem))
  have hkl' : kl = k := Option.some.inj (hkl.symm.trans (hk l hlmem))
  have htot0 : calculateTotalTime d = some (.val 0) := by
    rw [calculateTotalTime_eq d f l kf kl h2 hf hl hkf hkl, hkf', hkl']
    norm_num
  refine ⟨htot0, ?_⟩
  simp [getSofResultSection, htot0]

/-- Witness for C10 at the equal-timestamp timeline. -/
theorem zero_total_time_reported_null_witness :
    2 ≤ equalTimesDoc.events.length ∧
    (∀ e ∈ equalTimesDoc.events, jsGetTime e.timestamp = some 1754461800000) ∧
    (calculateTotalTime equalTimesDoc = some (.val 0) ∧
      (getSofResultSection equalTimesDoc).operationalSummary.totalTimeInPort = none) :=
  ⟨by decide, by decide,
    zero_total_time_reported_null equalTimesDoc 1754461800000 (by decide) (by decide)⟩

/-- C1: the result section reports the anchored-to-berthed duration
from the hardcoded `fixedDurations` table (2.5 hours) even for a
timeline whose actual timestamp delta is 4 hours — the computed delta
the claim requires; the pure duration function applied to the same two
timestamps does return 4. -/
theorem fixed_duration_ignores_timestamps :
    (getSofResultSection fourHourGapDoc).eventPairs.map EventPair.duration =
      [fixedDurationAnchorageToBerthed] ∧
    calculateDuration "2025-08-06T06:30:00Z" "2025-08-06T10:30:00Z" = .val 4 ∧
    fixedDurationAnchorageToBerthed ≠ 4 := by
  refine ⟨by decide, ?_, by norm_num [fixedDurationAnchorageToBerthed, Rat.mkRat_eq_div]⟩
  have h1 : jsGetTime "2025-08-06T06:30:00Z" = some 1754461800000 := by decide
  have h2 : jsGetTime "2025-08-06T10:30:00Z" = some 1754476200000 := by decide
  simp only [calculateDuration, h1, h2]
  norm_num

/-- C3: an occurrence of `vessel_arrived_anchorage` — whose catalog
entry declares `requiresLocation` — with no location value is still
annotated `"Clean"` by the result section, which assigns that constant
to every formatted event instead of a missing-required-field anomaly. -/
theorem missing_required_location_annotated_clean :
    (getSofEventById "vessel_arrived_anchorage").map SofEvent.requiresLocation = some true ∧
    missingLocationDoc.events.map SofEventRecord.location = [none] ∧
    (getSofResultSection missingLocationDoc).formattedEvents.map FormattedEvent.anomalies =
      ["Clean"] :=
  ⟨by decide, by decide, by decide⟩

set_option maxRecDepth 8000 in
/-- Counterexample to C9 as stated: in a timeline stored in reverse
chronological order the CSV rows follow insertion order, so the first
row is the chronologically later occurrence. -/
theorem exportSofToCsv_not_chronological :
    getSofEventsChronological reverseOrderDoc =
      [anchoredRec "2025-08-06T06:30:00Z" (some "Anchorage Area"),
       berthedRec "2025-08-06T09:00:00Z"] ∧
    exportSofToCsv reverseOrderDoc =
      "Event Category,Event Name,Timestamp,Location,Remarks\n" ++
        csvRow (berthedRec "2025-08-06T09:00:00Z") ++ "\n" ++
        csvRow (anchoredRec "2025-08-06T06:30:00Z" (some "Anchorage Area")) ++ "\n" ∧
    csvRow (anchoredRec "2025-08-06T06:30:00Z" (some "Anchorage Area")) ≠
      csvRow (berthedRec "2025-08-06T09:00:00Z") :=
  ⟨by decide, by decide, by decide⟩

end SoF
